import Mathlib

/-!
Verification of the real-time messaging core of the art-marketplace backend.

The definitions below are a shallow embedding of the JavaScript source:

* `src/utils/contentFilter.js` (exposed in `src/utils/helpers.js`):
  the content safety filter — profanity filtering, contact-information
  detection, suspicious-pattern heuristics and the safety analyzer.
  JavaScript regular expressions are embedded through a small backtracking
  matcher (`matchToks`) with JavaScript semantics: leftmost match, greedy
  quantifiers with backtracking, and — crucially — the mutable `lastIndex`
  state that regexes with the `g` flag carry between `.test` calls.
* `src/models/Message.js`: the message schema defaults and
  `createConversationId`.
* `src/services/messageService.js` (class `MessageService`): `sendMessage`,
  `markMessagesAsRead`, `deleteMessage`, `toggleBlockUser`,
  `getConversationMessages`, `filterMessageContent`.
* `src/controllers/messageController.js`: the REST entry points.
* `src/sockets/chatHandler.js` (class `ChatHandler`): the socket entry
  points — `handleSendMessage`, `handleMarkAsRead`, `handleBlockUser`,
  `handleTypingStart`, `handleTypingStop`, `stopTyping`.

Persistence is modelled as an explicit list of message documents, the user
collection as a list of user records, and socket emissions as explicit
event values returned by each handler.
-/

namespace ArtMarket

/-! ## Character classes (JavaScript regex escapes, ASCII fragment) -/

/-- JavaScript `\w`: `[A-Za-z0-9_]`. -/
def isWordChar (c : Char) : Bool :=
  c.isAlpha || c.isDigit || c == '_'

/-- JavaScript `\s` on the ASCII fragment: space, tab, LF, CR, VT, FF. -/
def isSpaceChar (c : Char) : Bool :=
  c == ' ' || c == '\t' || c == '\n' || c == '\r' ||
  c == Char.ofNat 11 || c == Char.ofNat 12

/-- JavaScript `\d`. -/
def isDigitChar (c : Char) : Bool := c.isDigit

/-- Case-insensitive (`i` flag) or exact character comparison. -/
def charIEq (ci : Bool) (a b : Char) : Bool :=
  if ci then a.toLower == b.toLower else a == b

/-! ## Regex tokens

Each JavaScript pattern used by the content filter is a sequence of tokens.
All quantified subexpressions in the source patterns are single character
classes, so quantifiers only need to range over classes; groups appear only
as alternations of token sequences and as one optional group. -/

inductive Tok where
  /-- a single character of a class -/
  | cls (p : Char → Bool)
  /-- a literal string, with case-insensitivity flag -/
  | lit (s : List Char) (ci : Bool)
  /-- greedy `p*` over a character class -/
  | starC (p : Char → Bool)
  /-- greedy `p+` over a character class -/
  | plusC (p : Char → Bool)
  /-- greedy `p?` over a character class -/
  | optC (p : Char → Bool)
  /-- greedy bounded repetition over a character class -/
  | repC (p : Char → Bool) (lo hi : Nat)
  /-- alternation of token sequences, tried left to right -/
  | alt (xs : List (List Tok))
  /-- an optional group `( … )?`, greedy -/
  | optG (g : List Tok)
  /-- word boundary `\b` -/
  | wb

/-- Word boundary test: the previous character and the next character
disagree on word-char-ness (absent characters count as non-word). -/
def atBoundary (prev : Option Char) (s : List Char) : Bool :=
  (match prev with | some c => isWordChar c | none => false) !=
  (match s with | c :: _ => isWordChar c | [] => false)

/-- Match a case-(in)sensitive literal; returns the new previous character
and the remaining input on success. -/
def matchLit (ci : Bool) : List Char → Option Char → List Char →
    Option (Option Char × List Char)
  | [], prev, s => some (prev, s)
  | l :: ls, _, c :: s => if charIEq ci l c then matchLit ci ls (some c) s else none
  | _ :: _, _, [] => none

/-- Length of the maximal run of class characters at the head of the input. -/
def runLen (p : Char → Bool) : List Char → Nat
  | [] => 0
  | c :: s => if p c then runLen p s + 1 else 0

/-- Consume exactly `i` characters, tracking the new previous character. -/
def consume : List Char → Option Char → Nat → Option Char × List Char
  | s, prev, 0 => (prev, s)
  | c :: s, _, i + 1 => consume s (some c) i
  | [], prev, _ + 1 => (prev, [])

/-- Try the candidate consumption lengths `n, n-1, …, lo` in that order
(greedy backtracking); empty when `n < lo`. -/
def tryLens (lo n : Nat) (f : Nat → Option α) : Option α :=
  (List.range (n + 1 - lo)).findSome? (fun j => f (n - j))

/-- Backtracking matcher with JavaScript semantics: tokens are matched in
sequence, quantifiers are greedy and backtrack one character at a time,
alternatives are tried left to right, and the continuation `k` receives the
state after the token list.  The first success in this priority order is
returned.  `fuel` bounds the nesting depth (one unit per token processed
along a path), so any value exceeding the expanded pattern length is
exact. -/
def matchToks : Nat → List Tok → Option Char → List Char →
    (Option Char → List Char → Option (List Char)) → Option (List Char)
  | 0, _, _, _, _ => none
  | _ + 1, [], prev, s, k => k prev s
  | fuel + 1, t :: rest, prev, s, k =>
    match t with
    | .cls p =>
      match s with
      | [] => none
      | c :: s' => if p c then matchToks fuel rest (some c) s' k else none
    | .lit l ci =>
      match matchLit ci l prev s with
      | none => none
      | some (pr, s') => matchToks fuel rest pr s' k
    | .starC p =>
      tryLens 0 (runLen p s) (fun i =>
        let (pr, s') := consume s prev i
        matchToks fuel rest pr s' k)
    | .plusC p =>
      tryLens 1 (runLen p s) (fun i =>
        let (pr, s') := consume s prev i
        matchToks fuel rest pr s' k)
    | .optC p =>
      tryLens 0 (min 1 (runLen p s)) (fun i =>
        let (pr, s') := consume s prev i
        matchToks fuel rest pr s' k)
    | .repC p lo hi =>
      tryLens lo (min hi (runLen p s)) (fun i =>
        let (pr, s') := consume s prev i
        matchToks fuel rest pr s' k)
    | .alt xs => xs.findSome? (fun b => matchToks fuel (b ++ rest) prev s k)
    | .optG g =>
      match matchToks fuel (g ++ rest) prev s k with
      | some r => some r
      | none => matchToks fuel rest prev s k
    | .wb => if atBoundary prev s then matchToks fuel rest prev s k else none

/-- Fuel bound; every pattern below expands to far fewer than 200 tokens. -/
def matchFuel : Nat := 200

/-- Scan start positions left to right, returning the span `(start, end)`
of the leftmost match. `prev` is the character before the current
position (needed for `\b`), `i` the absolute index. -/
def scanFrom (fuel : Nat) (pat : List Tok) :
    Option Char → List Char → Nat → Option (Nat × Nat)
  | prev, [], i =>
    match matchToks fuel pat prev [] (fun _ r => some r) with
    | some _ => some (i, i)
    | none => none
  | prev, c :: s', i =>
    match matchToks fuel pat prev (c :: s') (fun _ r => some r) with
    | some r => some (i, i + (s'.length + 1 - r.length))
    | none => scanFrom fuel pat (some c) s' (i + 1)

/-- Leftmost match at or after position `start`, as in JavaScript matching
from `lastIndex`: word boundaries still see the character before `start`,
and a `start` beyond the string fails. -/
def firstMatchFrom (pat : List Tok) (s : List Char) (start : Nat) :
    Option (Nat × Nat) :=
  if s.length < start then none
  else scanFrom matchFuel pat ((s.take start).getLast?) (s.drop start) start

/-- JavaScript `regex.test(s)` for a regex with the `g` flag: matching
starts at `lastIndex`; on success the new `lastIndex` is the match end, on
failure it is reset to `0`. -/
def testG (pat : List Tok) (s : List Char) (li : Nat) : Bool × Nat :=
  match firstMatchFrom pat s li with
  | some (_, e) => (true, e)
  | none => (false, 0)

/-- JavaScript `s.replace(pat, repl)` with the `g` flag: replace successive
non-overlapping leftmost matches. -/
def replaceAllAux (pat : List Tok) (repl : List Char) :
    Nat → List Char → Nat → List Char
  | 0, s, _ => s
  | fuel + 1, s, start =>
    match firstMatchFrom pat s start with
    | none => s
    | some (b, e) =>
      replaceAllAux pat repl fuel (s.take b ++ repl ++ s.drop e)
        (b + repl.length)

def replaceAll (pat : List Tok) (repl : List Char) (s : List Char) :
    List Char :=
  replaceAllAux pat repl (s.length + 1) s 0

/-! ## Regular expressions of the content filter (`src/utils/contentFilter.js`)

`CONTACT_PATTERNS` from the source, one token sequence per regex literal.
All of them carry the `g` flag — they are module-level objects whose
`lastIndex` persists between `.test` calls — and the flagged ones also
carry `i` (case-insensitive). -/

/-- character class `[\w\.-]` of the email pattern -/
def emailCls (c : Char) : Bool := isWordChar c || c == '.' || c == '-'

/-- Pattern `/[\w\.-]+@[\w\.-]+\.\w+/gi` -/
def emailPat : List Tok :=
  [.plusC emailCls, .lit ['@'] true, .plusC emailCls, .lit ['.'] true,
   .plusC isWordChar]

/-- character class `[\s\-]` of the phone pattern -/
def spaceDash (c : Char) : Bool := isSpaceChar c || c == '-'

/-- Pattern `/(\+?\d{1,4}[\s\-]?)?\(?\d{1,4}\)?[\s\-]?\d{1,4}[\s\-]?\d{1,4}[\s\-]?\d{1,9}/g` -/
def phonePat : List Tok :=
  [.optG [.optC (fun c => c == '+'), .repC isDigitChar 1 4, .optC spaceDash],
   .optC (fun c => c == '('), .repC isDigitChar 1 4, .optC (fun c => c == ')'),
   .optC spaceDash, .repC isDigitChar 1 4,
   .optC spaceDash, .repC isDigitChar 1 4,
   .optC spaceDash, .repC isDigitChar 1 9]

/-- Pattern `/@[a-zA-Z0-9_]+/g` -/
def socialHandlePat : List Tok := [.lit ['@'] false, .plusC isWordChar]

/-- character class `[^\s]` -/
def nonSpace (c : Char) : Bool := !isSpaceChar c

/-- Pattern `/(https?:\/\/[^\s]+|www\.[^\s]+)/gi` -/
def urlPat : List Tok :=
  [.alt [[.lit "http".toList true, .optC (fun c => c == 's' || c == 'S'),
          .lit "://".toList true, .plusC nonSpace],
         [.lit "www.".toList true, .plusC nonSpace]]]

/-- Pattern `/(whatsapp|wa\.me)/gi` -/
def whatsappPat : List Tok :=
  [.alt [[.lit "whatsapp".toList true], [.lit "wa.me".toList true]]]

/-- Pattern `/(telegram|t\.me)/gi` -/
def telegramPat : List Tok :=
  [.alt [[.lit "telegram".toList true], [.lit "t.me".toList true]]]

/-- Pattern `/(instagram|insta)/gi` -/
def instagramPat : List Tok :=
  [.alt [[.lit "instagram".toList true], [.lit "insta".toList true]]]

/-- Pattern `/(facebook|fb\.com)/gi` -/
def facebookPat : List Tok :=
  [.alt [[.lit "facebook".toList true], [.lit "fb.com".toList true]]]

/-- Pattern `/(twitter|x\.com)/gi` -/
def twitterPat : List Tok :=
  [.alt [[.lit "twitter".toList true], [.lit "x.com".toList true]]]

/-- Pattern `/skype/gi` -/
def skypePat : List Tok := [.lit "skype".toList true]

/-- Pattern `/discord/gi` -/
def discordPat : List Tok := [.lit "discord".toList true]

/-- The `CONTACT_PHRASES` from the source, in order. -/
def CONTACT_PHRASES : List String :=
  ["contact me at", "reach me at", "call me at", "text me at",
   "my number is", "my email is", "find me on", "add me on",
   "follow me on", "dm me on", "message me on", "whatsapp me",
   "telegram me", "email me", "outside this app", "off this platform",
   "meet outside", "contact directly", "reach directly"]

/-- The `PROFANITY_WORDS` from the source. -/
def PROFANITY_WORDS : List String := ["badword1", "badword2"]

/-- The `\b<word>\b` with flags `gi`, as built by `new RegExp` for each
profanity word. -/
def profanityPat (w : String) : List Tok := [.wb, .lit w.toList true, .wb]

/-! The four `suspiciousPatterns` regex literals of
`detectSuspiciousPatterns`; these are recreated on every call, so their
`lastIndex` state never survives a call. -/

/-- Pattern `/\b(zero|one|two|three|four|five|six|seven|eight|nine)\b/gi` -/
def spelledDigitPat : List Tok :=
  [.wb,
   .alt [[.lit "zero".toList true], [.lit "one".toList true],
         [.lit "two".toList true], [.lit "three".toList true],
         [.lit "four".toList true], [.lit "five".toList true],
         [.lit "six".toList true], [.lit "seven".toList true],
         [.lit "eight".toList true], [.lit "nine".toList true]],
   .wb]

/-- Pattern `/\w+\s+(at|@)\s+\w+\s+(dot|\.)\s+\w+/gi` -/
def obfuscatedEmailPat : List Tok :=
  [.plusC isWordChar, .plusC isSpaceChar,
   .alt [[.lit "at".toList true], [.lit "@".toList true]],
   .plusC isSpaceChar, .plusC isWordChar, .plusC isSpaceChar,
   .alt [[.lit "dot".toList true], [.lit ".".toList true]],
   .plusC isSpaceChar, .plusC isWordChar]

/-- character class `[-._]` -/
def dashDotUnd (c : Char) : Bool := c == '-' || c == '.' || c == '_'

/-- Pattern `/\d+\s*[-._]\s*\d+\s*[-._]\s*\d+/g` -/
def dashedDigitsPat : List Tok :=
  [.plusC isDigitChar, .starC isSpaceChar, .cls dashDotUnd,
   .starC isSpaceChar, .plusC isDigitChar, .starC isSpaceChar,
   .cls dashDotUnd, .starC isSpaceChar, .plusC isDigitChar]

/-- Pattern `/\b(instagram|facebook|twitter|telegram|whatsapp)\b\s*:?\s*\w+/gi` -/
def platformColonPat : List Tok :=
  [.wb,
   .alt [[.lit "instagram".toList true], [.lit "facebook".toList true],
         [.lit "twitter".toList true], [.lit "telegram".toList true],
         [.lit "whatsapp".toList true]],
   .wb, .starC isSpaceChar, .optC (fun c => c == ':'), .starC isSpaceChar,
   .plusC isWordChar]

/-! ## The content filter functions -/

/-- The mutable `lastIndex` of each module-level `CONTACT_PATTERNS` regex
consulted by `validateMessageContent` (all carry the `g` flag). -/
structure RegexState where
  emailLI : Nat
  phoneLI : Nat
  urlLI : Nat
  socialLI : Nat
  whatsappLI : Nat
  telegramLI : Nat
  instagramLI : Nat
  facebookLI : Nat
  twitterLI : Nat
  skypeLI : Nat
  discordLI : Nat
deriving Repr, DecidableEq

/-- Fresh module state: every `lastIndex` is `0`. -/
def initRegexState : RegexState := ⟨0, 0, 0, 0, 0, 0, 0, 0, 0, 0, 0⟩

/-- Result shape of `validateMessageContent`. -/
structure ValidationResult where
  isValid : Bool
  violations : List String
deriving Repr, DecidableEq

/-- JavaScript `toLowerCase` on the ASCII fragment. -/
def jsToLower (s : List Char) : List Char := s.map Char.toLower

/-- The `needle` occurs as a contiguous substring of `hay`
(JavaScript `String.prototype.includes`). -/
def containsSub (hay needle : List Char) : Bool :=
  match hay with
  | [] => needle.isEmpty
  | _ :: t => leadsWith needle hay || containsSub t needle
where
  /-- The `needle` is a prefix of the input -/
  leadsWith : List Char → List Char → Bool
    | [], _ => true
    | _ :: _, [] => false
    | a :: as, b :: bs => a == b && leadsWith as bs

/-- The `validateMessageContent(content)` — translated check by check in
source order (email, phone, URL, social handle, the seven platform
patterns, then the contact phrases over the lowercased content).  Because
every regex it consults is a shared module-level object with the `g` flag,
each `.test` both reads and writes the `lastIndex` of that regex; the function
therefore threads a `RegexState`. -/
def validateMessageContentS (st : RegexState) (content : String) :
    ValidationResult × RegexState :=
  let s := content.toList
  let (e, eLI) := testG emailPat s st.emailLI
  let v := if e then ["Email addresses are not allowed"] else []
  let (p, pLI) := testG phonePat s st.phoneLI
  let v := v ++ (if p then ["Phone numbers are not allowed"] else [])
  let (u, uLI) := testG urlPat s st.urlLI
  let v := v ++ (if u then ["URLs and links are not allowed"] else [])
  let (h, hLI) := testG socialHandlePat s st.socialLI
  let v := v ++ (if h then ["Social media handles are not allowed"] else [])
  let (wa, waLI) := testG whatsappPat s st.whatsappLI
  let v := v ++ (if wa then ["References to whatsapp are not allowed"] else [])
  let (te, teLI) := testG telegramPat s st.telegramLI
  let v := v ++ (if te then ["References to telegram are not allowed"] else [])
  let (ig, igLI) := testG instagramPat s st.instagramLI
  let v := v ++ (if ig then ["References to instagram are not allowed"] else [])
  let (fb, fbLI) := testG facebookPat s st.facebookLI
  let v := v ++ (if fb then ["References to facebook are not allowed"] else [])
  let (tw, twLI) := testG twitterPat s st.twitterLI
  let v := v ++ (if tw then ["References to twitter are not allowed"] else [])
  let (sk, skLI) := testG skypePat s st.skypeLI
  let v := v ++ (if sk then ["References to skype are not allowed"] else [])
  let (dc, dcLI) := testG discordPat s st.discordLI
  let v := v ++ (if dc then ["References to discord are not allowed"] else [])
  let lower := jsToLower s
  let v := v ++ (CONTACT_PHRASES.filter
      (fun ph => containsSub lower ph.toList)).map
      (fun _ => "Requests for direct contact are not allowed")
  (⟨v.isEmpty, v⟩,
   ⟨eLI, pLI, uLI, hLI, waLI, teLI, igLI, fbLI, twLI, skLI, dcLI⟩)

/-- The `detectSuspiciousPatterns(content)` — the four heuristic regexes are
rebuilt on each call, so this function is genuinely stateless. -/
def detectSuspiciousPatterns (content : String) : Bool :=
  let s := content.toList
  (testG spelledDigitPat s 0).1 || (testG obfuscatedEmailPat s 0).1 ||
  (testG dashedDigitsPat s 0).1 || (testG platformColonPat s 0).1

/-- The profanity count of `analyzeContentSafety`: how many configured
words occur (each via a fresh `\b…\b` `gi` regex, so stateless). -/
def profanityCount (content : String) : Nat :=
  (PROFANITY_WORDS.filter
    (fun w => (testG (profanityPat w) content.toList 0).1)).length

/-- Result shape of `analyzeContentSafety`. -/
structure SafetyAnalysis where
  safetyScore : Int
  isAcceptable : Bool
  violations : List String
  hasProfanity : Bool
  hasSuspiciousPatterns : Bool
  recommendation : String
deriving Repr, DecidableEq

/-- The `analyzeContentSafety(content)`: runs `validateMessageContent` (which
mutates the shared regex state), the stateless suspicious-pattern
detector and the profanity count, then scores
`100 − 20·|violations| − 15·profanityCount − (25 if suspicious)`,
floored at `0`; acceptable iff the score is at least `70`. -/
def analyzeContentSafetyS (st : RegexState) (content : String) :
    SafetyAnalysis × RegexState :=
  let (validation, st') := validateMessageContentS st content
  let hasSusp := detectSuspiciousPatterns content
  let pc := profanityCount content
  let score : Int :=
    max 0 (100 - 20 * (validation.violations.length : Int) - 15 * (pc : Int)
      - (if hasSusp then 25 else 0))
  (⟨score, decide (70 ≤ score), validation.violations, decide (0 < pc),
    hasSusp, if 70 ≤ score then "APPROVE" else "REJECT"⟩, st')

/-- The `analyzeContentSafety` as seen by a caller while the module regexes
are in their fresh state (every `lastIndex` zero). -/
def analyzeContentSafety (content : String) : SafetyAnalysis :=
  (analyzeContentSafetyS initRegexState content).1

/-! ## Message model (`src/models/Message.js`) -/

/-- The `messageStatus` enum: `["sent", "delivered", "read"]`, default
`"sent"`. -/
inductive MessageStatus where
  | sent
  | delivered
  | read
deriving Repr, DecidableEq

/-- Position of a status along the `sent → delivered → read` chain. -/
def statusRank : MessageStatus → Nat
  | .sent => 0
  | .delivered => 1
  | .read => 2

/-- A persisted message document (the schema fields the messaging core
reads or writes). -/
structure Msg where
  mid : String
  sender : String
  receiver : String
  content : String
  conversationId : String
  timestamp : Nat
  read : Bool
  readAt : Option Nat
  messageStatus : MessageStatus
  deleted : Bool
  deletedAt : Option Nat
deriving Repr, DecidableEq

/-- The message collection. -/
abbrev Store := List Msg

/-- A user document, restricted to the fields the messaging core
consults. -/
structure UserRec where
  uid : String
  username : String
  role : String
  isVerified : Bool
  blockedUsers : List String
deriving Repr, DecidableEq

/-- The `User.findById`. -/
def findUser (users : List UserRec) (i : String) : Option UserRec :=
  users.find? (fun u => u.uid == i)

/-- The `Message.findById`. -/
def findMsg (store : Store) (i : String) : Option Msg :=
  store.find? (fun m => m.mid == i)

/-- Lexicographic order on character sequences — the comparison the
default JavaScript array sort applies to two strings (code-unit order,
which on the fragment modelled here coincides with code-point order). -/
def lexLe : List Char → List Char → Bool
  | [], _ => true
  | _ :: _, [] => false
  | a :: as, b :: bs => if a == b then lexLe as bs else decide (a < b)

/-- The `Message.createConversationId(userIdA, userIdB)`:
`[a, b].sort().join("_")` — the two ids sorted lexicographically, joined
with a single underscore.  A pure function. -/
def createConversationId (a b : String) : String :=
  if lexLe a.toList b.toList then a ++ "_" ++ b else b ++ "_" ++ a

/-- The `AppError(message, statusCode)`. -/
structure AppError where
  emsg : String
  statusCode : Nat
deriving Repr, DecidableEq

/-! ## MessageService (`src/services/messageService.js`) -/

/-- The `MessageService.filterMessageContent(content)`: redacts emails, phone
numbers, social handles and URLs (each with a fresh `g`-flag regex literal)
and then applies `filterProfanity`.  The regex literals of the service itself
differ slightly from `CONTACT_PATTERNS`: the email/phone/social patterns
are case-sensitive here and the URL pattern has no `www.` branch. -/
def serviceFilterMessageContent (content : String) : String :=
  let s := content.toList
  let s := replaceAll [.plusC emailCls, .lit ['@'] false, .plusC emailCls,
      .lit ['.'] false, .plusC isWordChar] "[CONTACT INFO REMOVED]".toList s
  let s := replaceAll phonePat "[CONTACT INFO REMOVED]".toList s
  let s := replaceAll [.lit ['@'] false, .plusC isWordChar]
      "[SOCIAL HANDLE REMOVED]".toList s
  let s := replaceAll [.lit "http".toList false, .optC (fun c => c == 's'),
      .lit "://".toList false, .plusC nonSpace] "[LINK REMOVED]".toList s
  let s := PROFANITY_WORDS.foldl
      (fun acc w => replaceAll (profanityPat w)
        (List.replicate w.length '*') acc) s
  String.mk s

/-- The `MessageService.sendMessage(senderId, receiverId, content)`: filters
the content, computes the conversation id, and persists a new message with
`read = false` and the schema defaults (`messageStatus = "sent"`,
`deleted = false`).  `now` models `new Date()` and `newId` the generated
document id. -/
def serviceSendMessage (store : Store) (senderId receiverId content : String)
    (now : Nat) (newId : String) : Store × Msg :=
  let filtered := serviceFilterMessageContent content
  let convId := createConversationId senderId receiverId
  let m : Msg :=
    { mid := newId, sender := senderId, receiver := receiverId,
      content := filtered, conversationId := convId, timestamp := now,
      read := false, readAt := none, messageStatus := .sent,
      deleted := false, deletedAt := none }
  (store ++ [m], m)

/-- Row effect of the service `updateMany({conversationId, receiver,
read: false}, {read: true, readAt})`. -/
def restReadRow (convId userId : String) (now : Nat) (m : Msg) : Msg :=
  if m.conversationId == convId && m.receiver == userId && m.read == false
  then { m with read := true, readAt := some now }
  else m

/-- The `MessageService.markMessagesAsRead(userId, otherUserId)`: one
`updateMany` setting `read = true` and `readAt` on every message of the
conversation addressed to `userId` with `read = false`.  It does **not**
touch `messageStatus`. -/
def serviceMarkMessagesAsRead (store : Store) (userId otherUserId : String)
    (now : Nat) : Store :=
  let convId := createConversationId userId otherUserId
  store.map (restReadRow convId userId now)

/-- The `try` body of `MessageService.deleteMessage(messageId, userId)`:
`NotFound` (404) when the message is absent, `Forbidden` (403) when the
actor is not the sender, otherwise the soft-deleted store. -/
def deleteMessageTry (store : Store) (messageId userId : String)
    (now : Nat) : Except AppError Store :=
  match findMsg store messageId with
  | none => .error ⟨"Message not found", 404⟩
  | some m =>
    if m.sender != userId then
      .error ⟨"You can only delete your own messages", 403⟩
    else
      .ok (store.map (fun x =>
        if x.mid == messageId
        then { x with deleted := true, deletedAt := some now }
        else x))

/-- The `MessageService.deleteMessage`: the surrounding `catch` converts
**every** failure — including the `AppError(404)` and `AppError(403)` the
body just threw — into `AppError("Failed to delete message", 500)`.  The
pair returned is (caller-visible outcome, resulting store). -/
def serviceDeleteMessage (store : Store) (messageId userId : String)
    (now : Nat) : Except AppError Unit × Store :=
  match deleteMessageTry store messageId userId now with
  | .ok store' => (.ok (), store')
  | .error _ => (.error ⟨"Failed to delete message", 500⟩, store)

/-- Result of a block toggle. -/
structure BlockResult where
  action : String
  blockedUsers : List String
deriving Repr, DecidableEq

/-- Replace a user record in the collection. -/
def updateUser (users : List UserRec) (u : UserRec) : List UserRec :=
  users.map (fun x => if x.uid == u.uid then u else x)

/-- The `MessageService.toggleBlockUser(userId, targetUserId)`: removes the
target from the `blockedUsers` list of the caller if present ("unblocked"),
otherwise appends it ("blocked").  No role check of any kind.  A missing
caller record makes the body throw, which the `catch` wraps as a 500. -/
def serviceToggleBlockUser (users : List UserRec)
    (userId targetUserId : String) :
    Except AppError (List UserRec × BlockResult) :=
  match findUser users userId with
  | none => .error ⟨"Failed to toggle block user", 500⟩
  | some user =>
    if user.blockedUsers.contains targetUserId then
      let bl := user.blockedUsers.filter (fun i => i != targetUserId)
      .ok (updateUser users { user with blockedUsers := bl },
           ⟨"unblocked", bl⟩)
    else
      let bl := user.blockedUsers ++ [targetUserId]
      .ok (updateUser users { user with blockedUsers := bl },
           ⟨"blocked", bl⟩)

/-- Insertion into a list sorted by ascending timestamp (stable). -/
def insertByTime (m : Msg) : List Msg → List Msg
  | [] => [m]
  | x :: xs =>
    if x.timestamp ≤ m.timestamp then x :: insertByTime m xs
    else m :: x :: xs

/-- Sort by ascending timestamp, as `sort({ timestamp: 1 })`. -/
def sortByTime : List Msg → List Msg
  | [] => []
  | x :: xs => insertByTime x (sortByTime xs)

/-- The `MessageService.getConversationMessages(userId, otherUserId, options)`:
the page of non-deleted messages of the conversation, sorted by ascending
timestamp. -/
def serviceGetConversationMessages (store : Store)
    (userId otherUserId : String) (page limit : Nat) : List Msg :=
  let convId := createConversationId userId otherUserId
  let skip := (page - 1) * limit
  (((sortByTime (store.filter (fun m =>
      m.conversationId == convId && !m.deleted)))).drop skip).take limit

/-- Filter of the per-conversation unread count query. -/
def unreadPred (convId userId : String) (m : Msg) : Bool :=
  m.conversationId == convId && m.receiver == userId &&
  m.read == false && m.deleted == false

/-- The `countDocuments({conversationId, receiver, read: false, deleted: {$ne:
true}})` — the per-conversation unread count used by the conversation
directory. -/
def unreadCount (store : Store) (convId userId : String) : Nat :=
  (store.filter (unreadPred convId userId)).length

/-! ## Socket chat handlers (`src/sockets/chatHandler.js`) -/

/-- The `findByIdAndUpdate(id, { messageStatus: st })`. -/
def setStatusById (store : Store) (i : String) (st : MessageStatus) :
    Store :=
  store.map (fun m =>
    if m.mid == i then { m with messageStatus := st } else m)

/-- The environment a socket handler sees: the user collection, the set of
online user ids (`onlineHandler.isUserOnline`), and the message store. -/
structure ChatEnv where
  users : List UserRec
  online : List String
  store : Store
deriving Repr, DecidableEq

/-- Caller-visible outcome of the socket `send_message` handler. -/
inductive SendOutcome where
  /-- a `message_error` emission: message text and (possibly empty)
  violation list -/
  | error (emsg : String) (violations : List String)
  /-- a `message_sent` emission carrying the stored message -/
  | sent (m : Msg)
deriving Repr, DecidableEq

/-- The `ChatHandler.handleSendMessage(socket, io, data)`.  Guards in source
order: falsy/self-target data, receiver existence, differing roles, only the
block list of the **receiver**, then the safety analyzer; on success the
message is persisted and — if the receiver is online — immediately
upgraded to `delivered`.  The analyzer reads the shared regex state
`rs`. -/
def handleSendMessage (rs : RegexState) (env : ChatEnv) (sender : UserRec)
    (receiverId content : String) (now : Nat) (newId : String) :
    SendOutcome × Store :=
  if receiverId == "" || content == "" || receiverId == sender.uid then
    (.error "Invalid message data" [], env.store)
  else
    match findUser env.users receiverId with
    | none => (.error "Receiver not found" [], env.store)
    | some receiver =>
      if sender.role == receiver.role then
        (.error "You can only message users with different roles" [],
         env.store)
      else if receiver.blockedUsers.contains sender.uid then
        (.error "Unable to send message" [], env.store)
      else
        let analysis := (analyzeContentSafetyS rs content).1
        if !analysis.isAcceptable then
          (.error "Message contains prohibited content" analysis.violations,
           env.store)
        else
          let (store', m) :=
            serviceSendMessage env.store sender.uid receiverId content now
              newId
          if env.online.contains receiverId then
            (.sent { m with messageStatus := .delivered },
             setStatusById store' m.mid .delivered)
          else
            (.sent m, store')

/-- Caller-visible outcome of the socket `mark_as_read` handler. -/
inductive MarkReadOutcome where
  | error (emsg : String)
  /-- The `messages_read` to the counterpart and `messages_marked_read` back -/
  | marked (conversationId : String)
deriving Repr, DecidableEq

/-- Row effect of the socket `updateMany({conversationId, receiver,
read: false}, {read: true, readAt, messageStatus: "read"})`. -/
def sockReadRow (convId callerId : String) (now : Nat) (m : Msg) : Msg :=
  if m.conversationId == convId && m.receiver == callerId &&
     m.read == false
  then { m with read := true, readAt := some now, messageStatus := .read }
  else m

/-- The `ChatHandler.handleMarkAsRead(socket, io, data)`: validates the
counterpart id, then one `updateMany` setting `read`, `readAt` **and**
`messageStatus = "read"` on every unread message of the conversation
addressed to the caller.  No role check and no block check. -/
def handleMarkAsRead (store : Store) (callerId otherUserId : String)
    (now : Nat) : MarkReadOutcome × Store :=
  if otherUserId == "" || otherUserId == callerId then
    (.error "Invalid user ID", store)
  else
    let convId := createConversationId callerId otherUserId
    (.marked convId, store.map (sockReadRow convId callerId now))

/-- Caller-visible outcome of the socket `block_user` handler. -/
inductive BlockOutcome where
  /-- a plain `error` emission -/
  | error (emsg : String)
  /-- a `user_block_toggled` emission reporting the toggle result -/
  | toggled (action : String) (blockedUsers : List String)
deriving Repr, DecidableEq

/-- The `ChatHandler.handleBlockUser(socket, io, data)`: validates the target
id and delegates to `toggleBlockUser`.  **No role check** — unlike the
REST controller, any existing pair of users can block each other here. -/
def handleBlockUser (env : ChatEnv) (caller : UserRec)
    (targetUserId : String) : BlockOutcome × List UserRec :=
  if targetUserId == "" || targetUserId == caller.uid then
    (.error "Invalid target user ID", env.users)
  else
    match serviceToggleBlockUser env.users caller.uid targetUserId with
    | .error _ => (.error "Failed to block/unblock user", env.users)
    | .ok (users', res) => (.toggled res.action res.blockedUsers, users')

/-! ### Typing indicators

`activeTyping` maps a pair key `"<senderId>_<otherUserId>"` to its armed
3-second timer; we model the map as the list of present keys.  A
`user_typing` emission is recorded explicitly. -/

/-- A `user_typing` emission to the room `user_<toUser>`. -/
structure TypingEvent where
  toUser : String
  fromUser : String
  isTyping : Bool
deriving Repr, DecidableEq

/-- The typing key `` `${socket.user.id}_${otherUserId}` ``. -/
def typingKey (callerId otherUserId : String) : String :=
  callerId ++ "_" ++ otherUserId

/-- The `ChatHandler.stopTyping(socket, otherUserId, io = null)`: clears the
timer/map entry of the pair; emits `user_typing { isTyping: false }` **only
when an `io` handle was passed**. -/
def stopTyping (active : List String) (callerId otherUserId : String)
    (ioPassed : Bool) : List String × List TypingEvent :=
  if otherUserId == "" then (active, [])
  else
    (active.filter (fun k => k != typingKey callerId otherUserId),
     if ioPassed then [⟨otherUserId, callerId, false⟩] else [])

/-- The `ChatHandler.handleTypingStart(socket, io, data)`: re-arms the 3-second
timer of the pair (debounce) and emits `user_typing { isTyping: true }`. -/
def handleTypingStart (active : List String)
    (callerId otherUserId : String) : List String × List TypingEvent :=
  if otherUserId == "" || otherUserId == callerId then (active, [])
  else
    let key := typingKey callerId otherUserId
    ((active.filter (fun k => k != key)) ++ [key],
     [⟨otherUserId, callerId, true⟩])

/-- The 3-second timer firing: the `setTimeout` callback is
`this.stopTyping(socket, otherUserId)` — **without** `io`. -/
def typingTimerFire (active : List String)
    (callerId otherUserId : String) : List String × List TypingEvent :=
  stopTyping active callerId otherUserId false

/-- The `ChatHandler.handleTypingStop(socket, io, data)`:
`this.stopTyping(socket, otherUserId, io)` — with `io`. -/
def handleTypingStop (active : List String)
    (callerId otherUserId : String) : List String × List TypingEvent :=
  stopTyping active callerId otherUserId true

/-! ## REST controllers (`src/controllers/messageController.js`) -/

/-- A controller outcome: success payload or `AppError` via `next`. -/
inductive RestOutcome (α : Type) where
  | ok (a : α)
  | err (statusCode : Nat) (emsg : String)
deriving Repr, DecidableEq

/-- The `sendMessage` controller: receiver existence, differing roles, **both**
block directions (the list of the receiver, then the own list of the sender),
`messageService.sendMessage` — the content safety analyzer is **never
invoked** on this path; the (redacted) message is always persisted once
the four guards pass. -/
def restSendMessage (env : ChatEnv) (sender : UserRec)
    (receiverId content : String) (now : Nat) (newId : String) :
    RestOutcome Msg × Store :=
  match findUser env.users receiverId with
  | none => (.err 404 "Receiver not found", env.store)
  | some receiver =>
    if sender.role == receiver.role then
      (.err 403 "You cannot send messages to users with the same role",
       env.store)
    else if receiver.blockedUsers.contains sender.uid then
      (.err 403 "Unable to send message", env.store)
    else if sender.blockedUsers.contains receiverId then
      (.err 403 "You have blocked the receiver", env.store)
    else
      let (store', m) :=
        serviceSendMessage env.store sender.uid receiverId content now newId
      (.ok m, store')

/-- The `getConversationMessages` controller: other-user existence and role
check, then the service query. -/
def restGetConversationMessages (env : ChatEnv) (caller : UserRec)
    (otherUserId : String) (page limit : Nat) :
    RestOutcome (List Msg) :=
  match findUser env.users otherUserId with
  | none => .err 404 "User not found"
  | some otherUser =>
    if caller.role == otherUser.role then
      .err 403 "You cannot view messages with users of the same role"
    else
      .ok (serviceGetConversationMessages env.store caller.uid otherUserId
        page limit)

/-- The `markMessagesAsRead` controller: no guards of its own, it simply runs
the service update (which sets `read`/`readAt` but not
`messageStatus`). -/
def restMarkMessagesAsRead (store : Store) (callerId otherUserId : String)
    (now : Nat) : Store :=
  serviceMarkMessagesAsRead store callerId otherUserId now

/-- The `toggleBlockUser` controller: target existence and role check, then
the service toggle. -/
def restToggleBlockUser (env : ChatEnv) (caller : UserRec)
    (targetUserId : String) : RestOutcome BlockResult × List UserRec :=
  match findUser env.users targetUserId with
  | none => (.err 404 "User not found", env.users)
  | some target =>
    if caller.role == target.role then
      (.err 403 "You cannot block users with the same role", env.users)
    else
      match serviceToggleBlockUser env.users caller.uid targetUserId with
      | .error e => (.err e.statusCode e.emsg, env.users)
      | .ok (users', res) => (.ok res, users')

/-! ## Per-message delivery-status operations (claim C6)

The three core operations that touch the status of one message:
`Message.create` (status `"sent"`, `read = false`), the delivered-upgrade
`findByIdAndUpdate(id, { messageStatus: "delivered" })` that
`handleSendMessage` issues when the receiver is online, and the
`mark_as_read` row update. -/

inductive CoreOp where
  /-- the delivered-upgrade of `handleSendMessage` -/
  | deliver
  /-- the effect on this row of the `updateMany` in `handleMarkAsRead` -/
  | markRead (now : Nat)
deriving Repr, DecidableEq

/-- Apply one operation to one message document. -/
def applyOp (m : Msg) : CoreOp → Msg
  | .deliver => { m with messageStatus := .delivered }
  | .markRead now =>
    if m.read == false
    then { m with read := true, readAt := some now, messageStatus := .read }
    else m

/-- The documents a message passes through under a sequence of
operations, starting from (and including) its created state. -/
def runTrace (m : Msg) : List CoreOp → List Msg
  | [] => [m]
  | op :: ops => m :: runTrace (applyOp m op) ops

/-- The status never regresses along a trace. -/
def statusMonotone (ms : List Msg) : Prop :=
  ms.Chain' (fun a b => statusRank a.messageStatus ≤ statusRank b.messageStatus)

/-! ## The scoring rule as the spec words it (for claim C5)

The spec describes the deduction as "20 per distinct violation category
detected (contact info, URLs, social handles, named-platform references,
direct-contact request phrases)".  The following definitions transcribe
that wording — five category flags, each decided with the code detectors
in their fresh state — to compare against `analyzeContentSafety`. -/

/-- Whether any of the seven named-platform regexes matches. -/
def anyPlatformRef (s : List Char) : Bool :=
  (testG whatsappPat s 0).1 || (testG telegramPat s 0).1 ||
  (testG instagramPat s 0).1 || (testG facebookPat s 0).1 ||
  (testG twitterPat s 0).1 || (testG skypePat s 0).1 ||
  (testG discordPat s 0).1

/-- The five category flags of the claimed rule: contact info (email or
phone), URLs, social handles, named-platform references, direct-contact
request phrases. -/
def specCategoryFlags (content : String) : List Bool :=
  let s := content.toList
  [(testG emailPat s 0).1 || (testG phonePat s 0).1,
   (testG urlPat s 0).1,
   (testG socialHandlePat s 0).1,
   anyPlatformRef s,
   CONTACT_PHRASES.any (fun ph => containsSub (jsToLower s) ph.toList)]

/-- Number of distinct violation categories detected. -/
def specDistinctCategories (content : String) : Nat :=
  (specCategoryFlags content).count true

/-- The score exactly as the claim words it: `100` minus `20` per
distinct category, minus `15` per profane term, minus `25` for the
evasion heuristic, floored at `0`. -/
def specClaimedScore (content : String) : Int :=
  max 0 (100 - 20 * (specDistinctCategories content : Int)
    - 15 * (profanityCount content : Int)
    - (if detectSuspiciousPatterns content then 25 else 0))

/-! ## Concrete records used by witnesses and counterexamples -/

/-- an artist with an empty block list -/
def alice : UserRec := ⟨"a1", "alice", "artist", true, []⟩

/-- a buyer with an empty block list -/
def bob : UserRec := ⟨"b1", "bob", "buyer", true, []⟩

/-- the same artist after blocking the buyer `b1` -/
def aliceBlocking : UserRec := ⟨"a1", "alice", "artist", true, ["b1"]⟩

/-- a second artist (same role as `alice`) -/
def amy : UserRec := ⟨"a2", "amy", "artist", true, []⟩

/-- a freshly created message from `b1` to `a1` (unread, status sent) -/
def msgFresh : Msg :=
  ⟨"m1", "b1", "a1", "hi", "a1_b1", 1, false, none, .sent, false, none⟩

/-- Antisymmetry of the sort comparison. -/
theorem lexLe_antisymm : ∀ a b : List Char,
    lexLe a b = true → lexLe b a = true → a = b
  | [], [], _, _ => rfl
  | [], _ :: _, _, h => by simp [lexLe] at h
  | _ :: _, [], h, _ => by simp [lexLe] at h
  | a :: as, b :: bs, h1, h2 => by
    by_cases hab : a = b
    · subst hab
      simp only [lexLe, beq_self_eq_true, if_true] at h1 h2
      rw [lexLe_antisymm as bs h1 h2]
    · have hba : ¬ b = a := fun h => hab h.symm
      simp only [lexLe, beq_iff_eq, if_neg hab, if_neg hba,
        decide_eq_true_eq] at h1 h2
      exact absurd h2 (lt_asymm h1)

/-- Totality of the sort comparison. -/
theorem lexLe_total : ∀ a b : List Char,
    lexLe a b = false → lexLe b a = true
  | [], _, h => by simp [lexLe] at h
  | _ :: _, [], _ => rfl
  | a :: as, b :: bs, h => by
    by_cases hab : a = b
    · subst hab
      simp only [lexLe, beq_self_eq_true, if_true] at h ⊢
      exact lexLe_total as bs h
    · have hba : ¬ b = a := fun h => hab h.symm
      simp only [lexLe, beq_iff_eq, if_neg hab, if_neg hba,
        decide_eq_true_eq, decide_eq_false_iff_not] at h ⊢
      exact (lt_or_gt_of_ne hab).resolve_left h

/-- Claim C9 (confirmed): `createConversationId` is commutative, and its
value is always the lexicographically smaller of the two ids, a single
underscore, then the larger — independent of argument order.  Being a
Lean function of its two arguments alone, the embedding also witnesses
that the source function is pure. -/
theorem createConversationId_comm_sorted (a b : String) :
    createConversationId a b = createConversationId b a ∧
    ∃ lo hi, createConversationId a b = lo ++ "_" ++ hi ∧
      lexLe lo.toList hi.toList = true ∧
      ((lo, hi) = (a, b) ∨ (lo, hi) = (b, a)) := by
  constructor
  · unfold createConversationId
    cases h1 : lexLe a.toList b.toList <;> cases h2 : lexLe b.toList a.toList
    · have := lexLe_total a.toList b.toList h1
      rw [this] at h2; cases h2
    · rfl
    · rfl
    · have hd : a.toList = b.toList := lexLe_antisymm _ _ h1 h2
      have : a = b := by
        cases a; cases b
        exact congrArg String.mk (by simpa [String.toList] using hd)
      rw [this]
  · unfold createConversationId
    cases h1 : lexLe a.toList b.toList
    · exact ⟨b, a, rfl, lexLe_total a.toList b.toList h1, Or.inr rfl⟩
    · exact ⟨a, b, rfl, h1, Or.inl rfl⟩

/-- Claim C10 (code bug): the analyzer is not deterministic across
invocations.  The module-level `g`-flag regexes keep their `lastIndex`
between calls, so the second of two back-to-back calls on `"a@b.com"`
resumes the email and social-handle searches past their previous matches:
the first call scores 60 and rejects with two violations, the second
scores 100 and accepts with none. -/
theorem analyze_differs_across_repeated_calls :
    (analyzeContentSafetyS initRegexState "a@b.com").1.safetyScore = 60 ∧
    (analyzeContentSafetyS initRegexState "a@b.com").1.isAcceptable = false ∧
    (analyzeContentSafetyS initRegexState "a@b.com").1.violations =
      ["Email addresses are not allowed",
       "Social media handles are not allowed"] ∧
    (analyzeContentSafetyS
      (analyzeContentSafetyS initRegexState "a@b.com").2
      "a@b.com").1.safetyScore = 100 ∧
    (analyzeContentSafetyS
      (analyzeContentSafetyS initRegexState "a@b.com").2
      "a@b.com").1.isAcceptable = true ∧
    (analyzeContentSafetyS
      (analyzeContentSafetyS initRegexState "a@b.com").2
      "a@b.com").1.violations = [] := by
  refine ⟨?_, ?_, ?_, ?_, ?_, ?_⟩ <;> rfl

/-- Claim C8 (code bug): `deleteMessage` builds the distinct
`AppError(404)` / `AppError(403)` outcomes, but its own blanket `catch`
rethrows every failure as `AppError("Failed to delete message", 500)`, so
the caller observes only the generic error; the store is unchanged on
both failures. -/
theorem deleteMessage_generic_error_observed :
    deleteMessageTry [msgFresh] "m2" "b1" 9 =
      .error ⟨"Message not found", 404⟩ ∧
    serviceDeleteMessage [msgFresh] "m2" "b1" 9 =
      (.error ⟨"Failed to delete message", 500⟩, [msgFresh]) ∧
    deleteMessageTry [msgFresh] "m1" "a1" 9 =
      .error ⟨"You can only delete your own messages", 403⟩ ∧
    serviceDeleteMessage [msgFresh] "m1" "a1" 9 =
      (.error ⟨"Failed to delete message", 500⟩, [msgFresh]) := by
  refine ⟨?_, ?_, ?_, ?_⟩ <;> rfl

/-- Claim C5 (corrected, amended part): the analyzer score is
`100 − 20·(number of violation entries) − 15·(profane terms) − 25·(evasion)`
floored at `0`, where the violation entries are those produced by
`validateMessageContent` — one per matching platform and one per
contact phrase found, not one per distinct category — and the result is
acceptable iff the score is at least `70`. -/
theorem analyze_score_per_violation_entry (rs : RegexState)
    (content : String) :
    (analyzeContentSafetyS rs content).1.violations =
      (validateMessageContentS rs content).1.violations ∧
    (analyzeContentSafetyS rs content).1.safetyScore =
      max 0 (100
        - 20 * ((validateMessageContentS rs content).1.violations.length : Int)
        - 15 * (profanityCount content : Int)
        - (if detectSuspiciousPatterns content then 25 else 0)) ∧
    ((analyzeContentSafetyS rs content).1.isAcceptable = true ↔
      70 ≤ (analyzeContentSafetyS rs content).1.safetyScore) := by
  refine ⟨rfl, rfl, ?_⟩
  simp [analyzeContentSafetyS]

/-- Claim C5 (counterexample): on `"whatsapp, telegram"` the code
subtracts 20 twice — once per platform violation entry — and rejects with
score 60, while the claimed per-distinct-category rule (one
named-platform category) yields 80, acceptable. -/
theorem analyze_score_not_per_category :
    specDistinctCategories "whatsapp, telegram" = 1 ∧
    specClaimedScore "whatsapp, telegram" = 80 ∧
    (70 : Int) ≤ specClaimedScore "whatsapp, telegram" ∧
    (analyzeContentSafety "whatsapp, telegram").safetyScore = 60 ∧
    (analyzeContentSafety "whatsapp, telegram").isAcceptable = false ∧
    (analyzeContentSafety "whatsapp, telegram").safetyScore ≠
      specClaimedScore "whatsapp, telegram" := by
  refine ⟨rfl, rfl, by decide, rfl, rfl, by decide⟩

/-- Claim C7 (corrected, amended part): when the 3-second timer fires,
the typing pair transitions back to idle — its key is removed from the
active-typing map — but no `user_typing` event at all is emitted, because
the timer callback invokes `stopTyping` without an `io` handle; the
explicit `typing_stop` path is the one that emits exactly one
`isTyping:false` event. -/
theorem typing_timer_clears_silently (active : List String)
    (a b : String) (hb : b ≠ "") :
    typingKey a b ∉ (typingTimerFire active a b).1 ∧
    (typingTimerFire active a b).2 = [] ∧
    (handleTypingStop active a b).2 = [⟨b, a, false⟩] := by
  have hb' : (b == "") = false := by simpa using hb
  unfold typingTimerFire handleTypingStop stopTyping
  rw [hb']
  refine ⟨?_, rfl, rfl⟩
  intro hmem
  have := (List.mem_filter.mp hmem).2
  simp at this

/-- Claim C7 (witness): instantiation of the amended timer behavior for a
concrete armed pair. -/
theorem typing_timer_clears_silently_witness :
    ("b1" : String) ≠ "" ∧
    (typingKey "a1" "b1" ∉
      (typingTimerFire (handleTypingStart [] "a1" "b1").1 "a1" "b1").1 ∧
    (typingTimerFire (handleTypingStart [] "a1" "b1").1 "a1" "b1").2 = [] ∧
    (handleTypingStop (handleTypingStart [] "a1" "b1").1 "a1" "b1").2 =
      [⟨"b1", "a1", false⟩]) :=
  ⟨by decide,
   typing_timer_clears_silently (handleTypingStart [] "a1" "b1").1 "a1" "b1"
     (by decide)⟩

/-- Claim C7 (counterexample): after `typing_start` arms the pair
`("a1","b1")`, the timer firing leaves an empty event list — not the
single `isTyping:false` event the claim asserts. -/
theorem typing_timer_emits_no_event :
    (typingTimerFire (handleTypingStart [] "a1" "b1").1 "a1" "b1").1 = [] ∧
    (typingTimerFire (handleTypingStart [] "a1" "b1").1 "a1" "b1").2 = [] ∧
    (typingTimerFire (handleTypingStart [] "a1" "b1").1 "a1" "b1").2 ≠
      [⟨"b1", "a1", false⟩] := by
  refine ⟨rfl, rfl, by decide⟩

/-- The trace always starts with the initial document. -/
theorem runTrace_head (m : Msg) (ops : List CoreOp) :
    (runTrace m ops).head? = some m := by
  cases ops <;> rfl

/-- A `mark_as_read` row update never lowers the status rank: an unread
row jumps to `read` (the maximal rank), a read row is untouched. -/
theorem applyOp_markRead_mono (m : Msg) (t : Nat) :
    statusRank m.messageStatus ≤
      statusRank (applyOp m (.markRead t)).messageStatus := by
  unfold applyOp
  by_cases h : m.read = false
  · simp only [h, beq_self_eq_true, if_true]
    cases m.messageStatus <;> simp [statusRank]
  · simp [h]

/-- Any sequence consisting solely of `mark_as_read` updates keeps the
status monotone, from any starting document. -/
theorem markReads_monotone (rs : List CoreOp)
    (h : ∀ op ∈ rs, ∃ t, op = .markRead t) :
    ∀ m, statusMonotone (runTrace m rs) := by
  induction rs with
  | nil => intro m; simp [runTrace, statusMonotone]
  | cons op rest ih =>
    intro m
    obtain ⟨t, rfl⟩ := h op (by simp)
    have hrest : ∀ o ∈ rest, ∃ t, o = .markRead t :=
      fun o ho => h o (by simp [ho])
    show statusMonotone (m :: runTrace (applyOp m (.markRead t)) rest)
    unfold statusMonotone
    rw [List.chain'_cons']
    refine ⟨?_, ih hrest _⟩
    intro b hb
    rw [runTrace_head, Option.mem_some_iff] at hb
    subst hb
    exact applyOp_markRead_mono m t

/-- Claim C6 (corrected, amended part): for a message that has not yet
been marked read, the status moves only forward along
`sent → delivered → read` on every interleaving in which the
delivered-upgrades all precede the mark-as-read updates; the regression
of the original claim arises exactly when a mark-as-read lands between
the create and the delivered-upgrade. -/
theorem status_monotone_deliver_before_read (m : Msg)
    (hm : m.messageStatus ≠ .read) (ds rs : List CoreOp)
    (hds : ∀ op ∈ ds, op = .deliver)
    (hrs : ∀ op ∈ rs, ∃ t, op = .markRead t) :
    statusMonotone (runTrace m (ds ++ rs)) := by
  induction ds generalizing m with
  | nil => simpa using markReads_monotone rs hrs m
  | cons op ds ih =>
    have hop : op = .deliver := hds op (by simp)
    subst hop
    have hds' : ∀ o ∈ ds, o = .deliver := fun o ho => hds o (by simp [ho])
    show statusMonotone (m :: runTrace (applyOp m .deliver) (ds ++ rs))
    unfold statusMonotone
    rw [List.chain'_cons']
    constructor
    · intro b hb
      rw [runTrace_head, Option.mem_some_iff] at hb
      subst hb
      show statusRank m.messageStatus ≤
        statusRank (applyOp m .deliver).messageStatus
      unfold applyOp
      cases h : m.messageStatus
      · simp [statusRank]
      · simp [statusRank]
      · exact absurd h hm
    · exact ih (applyOp m .deliver) (by unfold applyOp; simp) hds'

/-- Claim C6 (witness): the amended invariant on the concrete freshly
created message, with the delivered-upgrade before the read. -/
theorem status_monotone_deliver_before_read_witness :
    msgFresh.messageStatus ≠ .read ∧
    statusMonotone (runTrace msgFresh [.deliver, .markRead 5]) :=
  ⟨by decide,
   status_monotone_deliver_before_read msgFresh (by decide)
     [.deliver] [.markRead 5] (by simp)
     (by intro op hop; simp at hop; exact ⟨5, hop⟩)⟩

/-- Claim C6 (counterexample): on the interleaving where the receiver
marks the freshly created message read before the delivered-upgrade
lands, the status goes `sent → read → delivered` — a regression. -/
theorem status_regresses_read_to_delivered :
    (runTrace msgFresh [.markRead 5, .deliver]).map
      (fun m => statusRank m.messageStatus) = [0, 2, 1] ∧
    ¬ statusMonotone (runTrace msgFresh [.markRead 5, .deliver]) := by
  refine ⟨rfl, ?_⟩
  intro h
  unfold statusMonotone at h
  have h2 := List.chain'_iff_get.mp h 1 (by simp [runTrace])
  revert h2
  decide

/-- Claim C1 (corrected, amended part): on the socket `send_message`
entry point, any content the analyzer scores unacceptable is rejected
before persistence — the store is unchanged no matter which guard fires —
and when the request passes every earlier guard the sender receives the
`message_error` carrying exactly the violation list. -/
theorem socketSend_rejects_unacceptable_before_persistence
    (rs : RegexState) (env : ChatEnv) (sender receiver : UserRec)
    (receiverId content : String) (now : Nat) (newId : String)
    (hacc : (analyzeContentSafetyS rs content).1.isAcceptable = false) :
    (handleSendMessage rs env sender receiverId content now newId).2 =
      env.store ∧
    (receiverId ≠ "" → content ≠ "" → receiverId ≠ sender.uid →
      findUser env.users receiverId = some receiver →
      sender.role ≠ receiver.role →
      receiver.blockedUsers.contains sender.uid = false →
      (handleSendMessage rs env sender receiverId content now newId).1 =
        .error "Message contains prohibited content"
          (analyzeContentSafetyS rs content).1.violations) := by
  constructor
  · by_cases hval : receiverId = "" ∨ content = "" ∨ receiverId = sender.uid
    · rcases hval with h | h | h <;> simp [handleSendMessage, h]
    · push_neg at hval
      obtain ⟨h1, h2, h3⟩ := hval
      cases hf : findUser env.users receiverId with
      | none => simp [handleSendMessage, h1, h2, h3, hf]
      | some r =>
        by_cases hr : sender.role = r.role
        · simp [handleSendMessage, h1, h2, h3, hf, hr]
        · by_cases hb : sender.uid ∈ r.blockedUsers
          · simp [handleSendMessage, h1, h2, h3, hf, hr, hb]
          · simp [handleSendMessage, h1, h2, h3, hf, hr, hb, hacc]
  · intro h1 h2 h3 hfind hrole hblock
    have hblock' : sender.uid ∉ receiver.blockedUsers := by
      simpa using hblock
    simp [handleSendMessage, hfind, h1, h2, h3, hrole, hblock', hacc]

/-- Claim C1 (witness): concrete socket rejection — `"reach me at
a@b.com"` scores 40, the handler leaves the empty store untouched and
emits the violation list. -/
theorem socketSend_rejects_unacceptable_witness :
    (analyzeContentSafetyS initRegexState "reach me at a@b.com").1.isAcceptable
      = false ∧
    (handleSendMessage initRegexState ⟨[alice, bob], [], []⟩ alice "b1"
      "reach me at a@b.com" 1 "m1").2 = [] ∧
    (handleSendMessage initRegexState ⟨[alice, bob], [], []⟩ alice "b1"
      "reach me at a@b.com" 1 "m1").1 =
      .error "Message contains prohibited content"
        (analyzeContentSafetyS initRegexState "reach me at a@b.com").1.violations := by
  have h := socketSend_rejects_unacceptable_before_persistence initRegexState
    ⟨[alice, bob], [], []⟩ alice bob "b1" "reach me at a@b.com" 1 "m1"
    (by rfl)
  exact ⟨by rfl, h.1,
    h.2 (by decide) (by decide) (by decide) (by rfl) (by decide) (by rfl)⟩

/-- Claim C1 (counterexample): the REST `sendMessage` controller never
invokes the analyzer: the same unacceptable content
(`"reach me at a@b.com"`, score 40) passes, and a redacted message
document is persisted — the claim fails on this entry point. -/
theorem restSend_persists_unacceptable_content :
    (analyzeContentSafety "reach me at a@b.com").isAcceptable = false ∧
    (restSendMessage ⟨[alice, bob], [], []⟩ alice "b1"
      "reach me at a@b.com" 1 "m1").1 =
      .ok ⟨"m1", "a1", "b1", "reach me at [CONTACT INFO REMOVED]",
           "a1_b1", 1, false, none, .sent, false, none⟩ ∧
    (restSendMessage ⟨[alice, bob], [], []⟩ alice "b1"
      "reach me at a@b.com" 1 "m1").2 =
      [⟨"m1", "a1", "b1", "reach me at [CONTACT INFO REMOVED]",
        "a1_b1", 1, false, none, .sent, false, none⟩] := by
  refine ⟨rfl, rfl, rfl⟩

/-- Claim C2 (corrected, amended part): the same-role rejection is
enforced on the socket send path and on the three REST paths (send,
conversation read, block) — each with its own error text — independent
of verification or online state; it is **not** enforced by the socket
`block_user` or `mark_as_read` handlers. -/
theorem same_role_rejected_where_enforced
    (rs : RegexState) (env : ChatEnv) (caller other : UserRec)
    (otherId content : String) (now : Nat) (newId : String)
    (page limit : Nat)
    (hid : otherId ≠ "") (hcontent : content ≠ "")
    (hself : otherId ≠ caller.uid)
    (hfind : findUser env.users otherId = some other)
    (hrole : caller.role = other.role) :
    (handleSendMessage rs env caller otherId content now newId).1 =
      .error "You can only message users with different roles" [] ∧
    (handleSendMessage rs env caller otherId content now newId).2 =
      env.store ∧
    (restSendMessage env caller otherId content now newId).1 =
      .err 403 "You cannot send messages to users with the same role" ∧
    (restSendMessage env caller otherId content now newId).2 = env.store ∧
    restGetConversationMessages env caller otherId page limit =
      .err 403 "You cannot view messages with users of the same role" ∧
    (restToggleBlockUser env caller otherId).1 =
      .err 403 "You cannot block users with the same role" ∧
    (restToggleBlockUser env caller otherId).2 = env.users := by
  refine ⟨?_, ?_, ?_, ?_, ?_, ?_, ?_⟩ <;>
    simp [handleSendMessage, restSendMessage, restGetConversationMessages,
      restToggleBlockUser, hfind, hid, hcontent, hself, hrole]

/-- Claim C2 (witness): two artists — every role-checked path rejects
them concretely. -/
theorem same_role_rejected_witness :
    findUser [alice, amy] "a2" = some amy ∧
    alice.role = amy.role ∧
    (handleSendMessage initRegexState ⟨[alice, amy], [], []⟩ alice "a2"
      "hello" 1 "m1").1 =
      .error "You can only message users with different roles" [] ∧
    (restSendMessage ⟨[alice, amy], [], []⟩ alice "a2" "hello" 1 "m1").1 =
      .err 403 "You cannot send messages to users with the same role" ∧
    restGetConversationMessages ⟨[alice, amy], [], []⟩ alice "a2" 1 20 =
      .err 403 "You cannot view messages with users of the same role" ∧
    (restToggleBlockUser ⟨[alice, amy], [], []⟩ alice "a2").1 =
      .err 403 "You cannot block users with the same role" := by
  have h := same_role_rejected_where_enforced initRegexState
    ⟨[alice, amy], [], []⟩ alice amy "a2" "hello" 1 "m1" 1 20
    (by decide) (by decide) (by decide) (by rfl) (by rfl)
  exact ⟨by rfl, by rfl, h.1, h.2.2.1, h.2.2.2.2.1, h.2.2.2.2.2.1⟩

/-- Claim C2 (counterexample): the socket `block_user` handler performs
no role check — one artist blocks another and the toggle succeeds — and
the socket `mark_as_read` handler consults no user record at all, so
neither rejects a same-role counterpart, contradicting "enforced
identically in all three operations". -/
theorem socket_block_same_role_not_rejected :
    alice.role = amy.role ∧
    (handleBlockUser ⟨[alice, amy], [], []⟩ alice "a2").1 =
      .toggled "blocked" ["a2"] ∧
    (handleBlockUser ⟨[alice, amy], [], []⟩ alice "a2").2 =
      [⟨"a1", "alice", "artist", true, ["a2"]⟩, amy] ∧
    (handleMarkAsRead [] "a1" "a2" 0).1 = .marked "a1_a2" := by
  refine ⟨rfl, rfl, rfl, rfl⟩

/-- Claim C3 (corrected, amended part): the receiver-blocked-sender
direction forbids sending on both entry points; the opposite direction
(sender has blocked the receiver) is checked only by the REST
controller.  In every rejected case no message document is created. -/
theorem block_directions_enforced_per_entry
    (rs : RegexState) (env : ChatEnv) (sender receiver : UserRec)
    (receiverId content : String) (now : Nat) (newId : String)
    (hid : receiverId ≠ "") (hcontent : content ≠ "")
    (hself : receiverId ≠ sender.uid)
    (hfind : findUser env.users receiverId = some receiver)
    (hrole : sender.role ≠ receiver.role) :
    (receiver.blockedUsers.contains sender.uid = true →
      (handleSendMessage rs env sender receiverId content now newId).1 =
        .error "Unable to send message" [] ∧
      (handleSendMessage rs env sender receiverId content now newId).2 =
        env.store ∧
      (restSendMessage env sender receiverId content now newId).1 =
        .err 403 "Unable to send message" ∧
      (restSendMessage env sender receiverId content now newId).2 =
        env.store) ∧
    (receiver.blockedUsers.contains sender.uid = false →
      sender.blockedUsers.contains receiverId = true →
      (restSendMessage env sender receiverId content now newId).1 =
        .err 403 "You have blocked the receiver" ∧
      (restSendMessage env sender receiverId content now newId).2 =
        env.store) := by
  constructor
  · intro hblk
    have hblk' : sender.uid ∈ receiver.blockedUsers := by simpa using hblk
    refine ⟨?_, ?_, ?_, ?_⟩ <;>
      simp [handleSendMessage, restSendMessage, hfind, hid, hcontent,
        hself, hrole, hblk']
  · intro hblk hmine
    have hblk' : sender.uid ∉ receiver.blockedUsers := by simpa using hblk
    have hmine' : receiverId ∈ sender.blockedUsers := by simpa using hmine
    refine ⟨?_, ?_⟩ <;>
      simp [restSendMessage, hfind, hrole, hblk', hmine']

/-- Claim C3 (witness): concrete rejections in the enforced direction on
both entry points, and in the sender direction on the REST path. -/
theorem block_directions_enforced_witness :
    findUser [alice, ⟨"b1", "bob", "buyer", true, ["a1"]⟩] "b1" =
      some ⟨"b1", "bob", "buyer", true, ["a1"]⟩ ∧
    (handleSendMessage initRegexState
      ⟨[alice, ⟨"b1", "bob", "buyer", true, ["a1"]⟩], [], []⟩ alice "b1"
      "hello" 1 "m1").1 = .error "Unable to send message" [] ∧
    (restSendMessage
      ⟨[alice, ⟨"b1", "bob", "buyer", true, ["a1"]⟩], [], []⟩ alice "b1"
      "hello" 1 "m1").1 = .err 403 "Unable to send message" ∧
    (restSendMessage ⟨[aliceBlocking, bob], [], []⟩ aliceBlocking "b1"
      "hello" 1 "m1").1 = .err 403 "You have blocked the receiver" := by
  have h := block_directions_enforced_per_entry initRegexState
    ⟨[alice, ⟨"b1", "bob", "buyer", true, ["a1"]⟩], [], []⟩ alice
    ⟨"b1", "bob", "buyer", true, ["a1"]⟩ "b1" "hello" 1 "m1"
    (by decide) (by decide) (by decide) (by rfl) (by decide)
  have h2 := block_directions_enforced_per_entry initRegexState
    ⟨[aliceBlocking, bob], [], []⟩ aliceBlocking bob "b1" "hello" 1 "m1"
    (by decide) (by decide) (by decide) (by rfl) (by decide)
  exact ⟨by rfl, (h.1 (by rfl)).1, (h.1 (by rfl)).2.2.1,
    (h2.2 (by rfl) (by rfl)).1⟩

/-- Claim C3 (counterexample): the socket handler checks only the
receiver block list; a sender who has blocked the receiver still sends
successfully there, and a message document is created — the claim fails
on the socket entry point. -/
theorem socketSend_ignores_sender_blocklist :
    aliceBlocking.blockedUsers.contains "b1" = true ∧
    (handleSendMessage initRegexState ⟨[aliceBlocking, bob], [], []⟩
      aliceBlocking "b1" "Hello, I love this piece!" 1 "m1").1 =
      .sent ⟨"m1", "a1", "b1", "Hello, I love this piece!", "a1_b1", 1,
             false, none, .sent, false, none⟩ ∧
    (handleSendMessage initRegexState ⟨[aliceBlocking, bob], [], []⟩
      aliceBlocking "b1" "Hello, I love this piece!" 1 "m1").2 =
      [⟨"m1", "a1", "b1", "Hello, I love this piece!", "a1_b1", 1,
        false, none, .sent, false, none⟩] := by
  refine ⟨rfl, rfl, rfl⟩

/-- A mark-as-read row update leaves no row satisfying the unread
predicate of its own conversation and reader (REST variant). -/
theorem restReadRow_not_unread (conv u : String) (now : Nat) (m : Msg) :
    unreadPred conv u (restReadRow conv u now m) = false := by
  unfold restReadRow unreadPred
  by_cases h1 : m.conversationId = conv <;>
  by_cases h2 : m.receiver = u <;>
  cases h3 : m.read <;>
  simp [h1, h2, h3]

/-- A mark-as-read row update leaves no row satisfying the unread
predicate of its own conversation and reader (socket variant). -/
theorem sockReadRow_not_unread (conv u : String) (now : Nat) (m : Msg) :
    unreadPred conv u (sockReadRow conv u now m) = false := by
  unfold sockReadRow unreadPred
  by_cases h1 : m.conversationId = conv <;>
  by_cases h2 : m.receiver = u <;>
  cases h3 : m.read <;>
  simp [h1, h2, h3]

/-- Re-applying the REST row update (at any later time) changes
nothing. -/
theorem restReadRow_idem (conv u : String) (now now2 : Nat) (m : Msg) :
    restReadRow conv u now2 (restReadRow conv u now m) =
      restReadRow conv u now m := by
  unfold restReadRow
  by_cases h1 : m.conversationId = conv <;>
  by_cases h2 : m.receiver = u <;>
  cases h3 : m.read <;>
  simp [h1, h2, h3]

/-- Re-applying the socket row update (at any later time) changes
nothing. -/
theorem sockReadRow_idem (conv u : String) (now now2 : Nat) (m : Msg) :
    sockReadRow conv u now2 (sockReadRow conv u now m) =
      sockReadRow conv u now m := by
  unfold sockReadRow
  by_cases h1 : m.conversationId = conv <;>
  by_cases h2 : m.receiver = u <;>
  cases h3 : m.read <;>
  simp [h1, h2, h3]

/-- The socket row update transitions exactly the unread messages of the
conversation addressed to the reader, and leaves every other row
untouched. -/
theorem sockReadRow_exact (conv u : String) (now : Nat) (m : Msg) :
    (m.conversationId = conv → m.receiver = u → m.read = false →
      sockReadRow conv u now m =
        { m with read := true, readAt := some now,
                 messageStatus := .read }) ∧
    (¬(m.conversationId = conv ∧ m.receiver = u ∧ m.read = false) →
      sockReadRow conv u now m = m) := by
  unfold sockReadRow
  constructor
  · intro h1 h2 h3
    simp [h1, h2, h3]
  · intro h
    by_cases h1 : m.conversationId = conv <;>
    by_cases h2 : m.receiver = u <;>
    cases h3 : m.read <;>
    simp [h1, h2, h3] <;>
    exact absurd ⟨h1, h2, h3⟩ h

/-- Mapping a row function that produces no unread row yields a store
with unread count zero. -/
theorem unreadCount_map_zero (f : Msg → Msg) (conv u : String)
    (h : ∀ m, unreadPred conv u (f m) = false) (store : Store) :
    unreadCount (store.map f) conv u = 0 := by
  unfold unreadCount
  induction store with
  | nil => rfl
  | cons m t ih => simpa [List.filter_cons, h m] using ih

/-- Mapping `g` after `f` is mapping `f` alone when `g` fixes every
`f`-image. -/
theorem map_map_fixed {f g : Msg → Msg} (h : ∀ m, g (f m) = f m) :
    ∀ l : List Msg, (l.map f).map g = l.map f := by
  intro l
  induction l with
  | nil => rfl
  | cons m t ih => simp only [List.map_cons, h, ih]

/-- A pointwise property of a row function holds coordinatewise between a
store and its mapped image. -/
theorem forall2_map_self {f : Msg → Msg} {P : Msg → Msg → Prop}
    (h : ∀ m, P m (f m)) : ∀ l : List Msg, List.Forall₂ P l (l.map f) := by
  intro l
  induction l with
  | nil => exact .nil
  | cons m t ih => exact .cons (h m) ih

/-- Claim C4 (corrected, amended part): on both entry points, mark-as-read
transitions exactly the unread messages of the conversation addressed to
the reader to `read = true` with `readAt` set, the unread count of the reader
for the conversation drops to zero, and a second invocation changes
nothing; the socket path additionally sets `messageStatus = "read"` on
the transitioned rows, while the REST path leaves `messageStatus`
untouched. -/
theorem markRead_reads_all_idempotent (store : Store) (u o : String)
    (now now2 : Nat) (hid : o ≠ "") (hself : o ≠ u) :
    unreadCount (restMarkMessagesAsRead store u o now)
      (createConversationId u o) u = 0 ∧
    restMarkMessagesAsRead (restMarkMessagesAsRead store u o now) u o now2 =
      restMarkMessagesAsRead store u o now ∧
    (handleMarkAsRead store u o now).1 =
      .marked (createConversationId u o) ∧
    unreadCount (handleMarkAsRead store u o now).2
      (createConversationId u o) u = 0 ∧
    (handleMarkAsRead (handleMarkAsRead store u o now).2 u o now2).2 =
      (handleMarkAsRead store u o now).2 ∧
    List.Forall₂ (fun m m2 =>
        (m.conversationId = createConversationId u o → m.receiver = u →
          m.read = false →
          m2 = { m with read := true, readAt := some now,
                        messageStatus := .read }) ∧
        (¬(m.conversationId = createConversationId u o ∧ m.receiver = u ∧
           m.read = false) → m2 = m))
      store (handleMarkAsRead store u o now).2 := by
  have hg : ¬(o == "" || o == u) = true := by
    simp [hid, hself]
  have hsock : handleMarkAsRead store u o now =
      (.marked (createConversationId u o),
       store.map (sockReadRow (createConversationId u o) u now)) := by
    unfold handleMarkAsRead
    rw [if_neg hg]
  have hsock2 : handleMarkAsRead
      (store.map (sockReadRow (createConversationId u o) u now)) u o now2 =
      (.marked (createConversationId u o),
       (store.map (sockReadRow (createConversationId u o) u now)).map
         (sockReadRow (createConversationId u o) u now2)) := by
    unfold handleMarkAsRead
    rw [if_neg hg]
  refine ⟨?_, ?_, ?_, ?_, ?_, ?_⟩
  · exact unreadCount_map_zero _ _ _
      (restReadRow_not_unread (createConversationId u o) u now) store
  · exact map_map_fixed
      (restReadRow_idem (createConversationId u o) u now now2) store
  · rw [hsock]
  · rw [hsock]
    exact unreadCount_map_zero _ _ _
      (sockReadRow_not_unread (createConversationId u o) u now) store
  · rw [hsock, hsock2]
    exact map_map_fixed
      (sockReadRow_idem (createConversationId u o) u now now2) store
  · rw [hsock]
    exact forall2_map_self
      (sockReadRow_exact (createConversationId u o) u now) store

/-- Claim C4 (witness): the amended properties on a concrete store with
one unread and one already-read message. -/
theorem markRead_reads_all_idempotent_witness :
    ("b1" : String) ≠ "" ∧ ("b1" : String) ≠ "a1" ∧
    unreadCount (restMarkMessagesAsRead [msgFresh] "a1" "b1" 5) "a1_b1" "a1"
      = 0 ∧
    (handleMarkAsRead [msgFresh] "a1" "b1" 5).1 = .marked "a1_b1" ∧
    unreadCount (handleMarkAsRead [msgFresh] "a1" "b1" 5).2 "a1_b1" "a1"
      = 0 :=
  have h := markRead_reads_all_idempotent [msgFresh] "a1" "b1" 5 6
    (by decide) (by decide)
  ⟨by decide, by decide,
   by rw [show ("a1_b1" : String) = createConversationId "a1" "b1" from rfl]
      exact h.1,
   by rw [show ("a1_b1" : String) = createConversationId "a1" "b1" from rfl]
      exact h.2.2.1,
   by rw [show ("a1_b1" : String) = createConversationId "a1" "b1" from rfl]
      exact h.2.2.2.1⟩

/-- Claim C4 (counterexample): the REST path does not set the message
status — after `markMessagesAsRead`, the freshly created message is
`read = true` with `readAt` set but its `messageStatus` is still `sent`,
not `read` as the claim asserts for both paths. -/
theorem restMarkRead_leaves_status_sent :
    restMarkMessagesAsRead [msgFresh] "a1" "b1" 5 =
      [⟨"m1", "b1", "a1", "hi", "a1_b1", 1, true, some 5, .sent, false,
        none⟩] ∧
    (⟨"m1", "b1", "a1", "hi", "a1_b1", 1, true, some 5, .sent, false,
      none⟩ : Msg).messageStatus ≠ .read := by
  refine ⟨rfl, by decide⟩
